import Mathlib

/-!
Verification of `util::Callback` from `src/util/callback.h`.

The header defines a non-owning, non-allocating callable reference: a pair of
an opaque `void *` context and a trampoline function pointer
`R (*)(void *, Args...)`, plus the adapters `util::Function` (free function)
and `util::Bind` / `util::_BindHelper` (member function, const and non-const
variants).

Embedding choices:
* Machine pointers (`void *`, function pointers) are modelled as `Nat`, with
  `0` playing the role of `nullptr`.  Pointer comparison in the source is
  address comparison, which matches `Nat` equality.
* The compiler generates one trampoline lambda per instantiation:
  `util::Function` has a single lambda per signature (address `freeTrampAddr`),
  and each `util::Bind` instantiation has one lambda per member function `F`
  (addresses `bindTrampAddr F` / `bindConstTrampAddr F` for the non-const and
  const variants).  All of these addresses are distinct and nonzero.
* A `World` gives meaning to code addresses: `freeFns` interprets a free
  function pointer as a state transformer, `methods` interprets a (non-const)
  member function id applied at an object address, and `constMethods`
  interprets a const-qualified member function — const-qualified members
  cannot mutate their object, so they are read-only functions of the state.
* `trampSem` is the dispatch performed when a trampoline pointer is called:
  it decodes the pointer back to the lambda it denotes, exactly mirroring
  which lambda body `util::Function` / `util::_BindHelper` installed.
-/

/-- A machine address.  `0` stands for `nullptr`. -/
abbrev Ptr := Nat

/-- The null pointer. -/
def nullPtr : Ptr := 0

namespace util

/-- The value type `util::Callback<R(Args...)>`: an opaque context pointer and
a trampoline (functor) pointer, both defaulted to `nullptr` as in the source
(`Context context = nullptr; Functor functor = nullptr;`). -/
structure Callback where
  context : Ptr := nullPtr
  functor : Ptr := nullPtr
deriving DecidableEq

/-- A default-constructed callback (`constexpr Callback() = default;`):
both fields are their initializers, `nullptr`. -/
def mkDefault : Callback := {}

/-- `util::Callback::IsSet`: `return (this->functor != nullptr);`. -/
def Callback.IsSet (c : Callback) : Bool :=
  c.functor != nullPtr

/-- `util::Callback::operator bool`: `return this->IsSet();`. -/
def Callback.toBool (c : Callback) : Bool :=
  c.IsSet

/-- `util::Callback::operator==`:
`return (this->context == other.context) && (this->functor == other.functor);`. -/
def Callback.beq (c other : Callback) : Bool :=
  (c.context == other.context) && (c.functor == other.functor)

/-- `util::Callback::operator!=`: `return !(*this == other);`. -/
def Callback.bne (c other : Callback) : Bool :=
  !(c.beq other)

/-- Address of the single trampoline lambda instantiated by `util::Function`
for the signature under consideration. -/
def freeTrampAddr : Ptr := 1

/-- Address of the trampoline lambda instantiated by the non-const
`util::_BindHelper` for member function id `F`. -/
def bindTrampAddr (F : Nat) : Ptr := 2 * F + 2

/-- Address of the trampoline lambda instantiated by the const
`util::_BindHelper` for member function id `F`. -/
def bindConstTrampAddr (F : Nat) : Ptr := 2 * F + 3

/-- The semantics of code addresses.  `α` is the tuple of invocation argument
values, `σ` the machine state (heap of objects plus anything else mutable),
`ρ` the return type `R`.  `dflt` is the value-initialized `R{}`. -/
structure World (α σ ρ : Type) where
  dflt : ρ
  freeFns : Ptr → α → σ → ρ × σ
  methods : Nat → Ptr → α → σ → ρ × σ
  constMethods : Nat → Ptr → α → σ → ρ

/-- Calling the trampoline stored at address `fptr` with context `ctx`:
decodes `fptr` to the lambda it denotes.
`freeTrampAddr` is the `util::Function` lambda, whose body casts the context
back to the function pointer and calls it; `bindTrampAddr F` is the non-const
bind lambda, whose body casts the context to `T *` and invokes `F` on it;
`bindConstTrampAddr F` is the const bind lambda, whose body casts the context
to `const T *` and invokes the const member `F` on it (which cannot mutate the
state).  Calling any other pointer is undefined behavior in the source and is
modelled as returning the default value. -/
def trampSem (w : World α σ ρ) (fptr ctx : Ptr) (a : α) (s : σ) : ρ × σ :=
  if fptr = freeTrampAddr then
    w.freeFns ctx a s
  else if 2 ≤ fptr ∧ fptr % 2 = 0 then
    w.methods ((fptr - 2) / 2) ctx a s
  else if 3 ≤ fptr ∧ fptr % 2 = 1 then
    (w.constMethods ((fptr - 3) / 2) ctx a s, s)
  else
    (w.dflt, s)

/-- `util::Callback::operator()`: if not set, return `R{}`; otherwise
`return this->functor(this->context, std::forward<Argsp>(args)...);`. -/
def Callback.invoke (w : World α σ ρ) (c : Callback) (a : α) (s : σ) : ρ × σ :=
  if c.IsSet then
    trampSem w c.functor c.context a s
  else
    (w.dflt, s)

/-- `util::Function`: stores the function pointer itself as the context
(`reinterpret_cast<void *>(function)`) and installs the free-function
trampoline lambda as the functor. -/
def Function (fp : Ptr) : Callback :=
  ⟨fp, freeTrampAddr⟩

/-- Non-const `util::_BindHelper<F>`: stores `&item` as the context
(`static_cast<void *>(&item)`) and installs the bind trampoline lambda
instantiated for `F` as the functor. -/
def _BindHelper (F : Nat) (item : Ptr) : Callback :=
  ⟨item, bindTrampAddr F⟩

/-- Const `util::_BindHelper<F>`: stores `&item` (const cast away, re-applied
inside the lambda) as the context and installs the const bind trampoline
lambda instantiated for `F` as the functor. -/
def _BindHelperConst (F : Nat) (item : Ptr) : Callback :=
  ⟨item, bindConstTrampAddr F⟩

/-- Non-const `util::Bind<F>`: `return _BindHelper<F>(item, F);`. -/
def Bind (F : Nat) (item : Ptr) : Callback :=
  _BindHelper F item

/-- Const `util::Bind<F>`: `return _BindHelper<F>(item, F);`. -/
def BindConst (F : Nat) (item : Ptr) : Callback :=
  _BindHelperConst F item

/-- Instrumentation used to state "called exactly once": wraps a state
transformer so that every call additionally increments a counter carried
alongside the state. -/
def countCalls (f : α → σ → ρ × σ) : α → σ × Nat → ρ × (σ × Nat) :=
  fun a p => ((f a p.1).1, ((f a p.1).2, p.2 + 1))

/-- Lifts a world to the call-counting instrumentation of every one of its
functions. -/
def countingWorld (w : World α σ ρ) : World α (σ × Nat) ρ where
  dflt := w.dflt
  freeFns := fun fp => countCalls (w.freeFns fp)
  methods := fun F ctx => countCalls (w.methods F ctx)
  constMethods := fun F ctx a p => w.constMethods F ctx a p.1

/-- A small concrete world over `Nat` arguments, state and results, used to
instantiate theorems with hypotheses at concrete inputs. -/
def natWorld : World Nat Nat Nat where
  dflt := 0
  freeFns := fun fp a s => (fp + a, s + 1)
  methods := fun F ctx a s => (F + ctx + a + s, s + ctx + 1)
  constMethods := fun F ctx a s => F + ctx + a + s

/-- A world whose state is a heap of counters indexed by object address, and
whose member function `0` is the `increment` method of the spec's counter
scenario: it increments the counter stored at its own object's address and
returns the new value. -/
def counterWorld : World Unit (Ptr → Nat) Nat where
  dflt := 0
  freeFns := fun _ _ h => (0, h)
  methods := fun _ self _ h => (h self + 1, fun q => if q = self then h self + 1 else h q)
  constMethods := fun _ self _ h => h self

/-- A store of callback variables, used to model copies living in distinct
memory locations and `Callback::operator=` overwriting one of them. -/
abbrev CbStore := Nat → Callback

/-- `Callback &operator=(const Callback &other) = default;` applied to the
variable at index `x` of a store: the stored pair is overwritten with
`other`'s pair; every other variable keeps its value. -/
def storeAssign (st : CbStore) (x : Nat) (v : Callback) : CbStore :=
  fun y => if y = x then v else st y

/-- State-passing rendering of `IsSet`, with the receiver threaded through
explicitly.  The member function is `const`-qualified and its body
(`return (this->functor != nullptr);`) contains no write to the receiver, so
the outgoing receiver is the incoming one. -/
def isSetM (c : Callback) : Bool × Callback :=
  (c.IsSet, c)

/-- State-passing rendering of `operator bool` (`const`, body
`return this->IsSet();`): receiver threaded, unchanged by the body. -/
def toBoolM (c : Callback) : Bool × Callback :=
  (c.toBool, c)

/-- State-passing rendering of `operator==` (`const`, takes `other` by const
reference): both operands threaded, neither written by the body. -/
def eqM (c other : Callback) : Bool × Callback × Callback :=
  (c.beq other, c, other)

/-- State-passing rendering of `operator!=` (`const`): both operands
threaded, neither written by the body. -/
def neM (c other : Callback) : Bool × Callback × Callback :=
  (c.bne other, c, other)

/-- State-passing rendering of `operator()` (`const`): the receiver is
threaded through; the body reads `functor` and `context` and never writes
them, while the trampoline call may transform the machine state `s`. -/
def invokeM (w : World α σ ρ) (c : Callback) (a : α) (s : σ) : ρ × Callback × σ :=
  if c.IsSet then
    ((trampSem w c.functor c.context a s).1, c, (trampSem w c.functor c.context a s).2)
  else
    (w.dflt, c, s)

/-- `Callback &operator=(const Callback &other) = default;` as a value
transformer: the receiver's two fields are overwritten with `other`'s. -/
def assignM (_c other : Callback) : Callback :=
  ⟨other.context, other.functor⟩

/-- Helper: invoking a set callback goes straight to its trampoline. -/
theorem invoke_set (w : World α σ ρ) (c : Callback) (h : c.IsSet = true) (a : α) (s : σ) :
    c.invoke w a s = trampSem w c.functor c.context a s := by
  simp only [Callback.invoke, h, if_true]

/-- Helper: calling the non-const bind trampoline for `F` dispatches to
member function `F` applied at the context address. -/
theorem bind_tramp_eq (w : World α σ ρ) (F : Nat) (o : Ptr) (a : α) (s : σ) :
    trampSem w (bindTrampAddr F) o a s = w.methods F o a s := by
  have h1 : ¬(2 * F + 2 = 1) := by omega
  have h2 : 2 ≤ 2 * F + 2 ∧ (2 * F + 2) % 2 = 0 := by omega
  have h3 : (2 * F + 2 - 2) / 2 = F := by omega
  simp only [trampSem, bindTrampAddr, freeTrampAddr]
  rw [if_neg h1, if_pos h2, h3]

/-- Helper: calling the const-bind trampoline for `F` dispatches to the
const member function `F` applied at the context address, leaving the state
unchanged. -/
theorem bind_const_tramp_eq (w : World α σ ρ) (F : Nat) (o : Ptr) (a : α) (s : σ) :
    trampSem w (bindConstTrampAddr F) o a s = (w.constMethods F o a s, s) := by
  have h1 : ¬(2 * F + 3 = 1) := by omega
  have h2 : ¬(2 ≤ 2 * F + 3 ∧ (2 * F + 3) % 2 = 0) := by omega
  have h3 : 3 ≤ 2 * F + 3 ∧ (2 * F + 3) % 2 = 1 := by omega
  have h4 : (2 * F + 3 - 3) / 2 = F := by omega
  simp only [trampSem, bindConstTrampAddr, freeTrampAddr]
  rw [if_neg h1, if_neg h2, if_pos h3, h4]

/-- Helper: `Bind F o` is a set callback with context `o` and the bind
trampoline for `F` as its functor. -/
theorem bind_isSet (F : Nat) (o : Ptr) : (Bind F o).IsSet = true := by
  simp [Bind, _BindHelper, Callback.IsSet, bindTrampAddr, nullPtr]

/-- Helper: `BindConst F o` is a set callback. -/
theorem bindConst_isSet (F : Nat) (o : Ptr) : (BindConst F o).IsSet = true := by
  simp [BindConst, _BindHelperConst, Callback.IsSet, bindConstTrampAddr, nullPtr]

/-- Helper: invoking `Bind F o` runs member function `F` at address `o`. -/
theorem bind_invoke_eq (w : World α σ ρ) (F : Nat) (o : Ptr) (a : α) (s : σ) :
    (Bind F o).invoke w a s = w.methods F o a s := by
  rw [invoke_set w (Bind F o) (bind_isSet F o) a s]
  exact bind_tramp_eq w F o a s

/-- Helper: invoking `BindConst F o` runs const member function `F` at
address `o` and preserves the state. -/
theorem bind_const_invoke_eq (w : World α σ ρ) (F : Nat) (o : Ptr) (a : α) (s : σ) :
    (BindConst F o).invoke w a s = (w.constMethods F o a s, s) := by
  rw [invoke_set w (BindConst F o) (bindConst_isSet F o) a s]
  exact bind_const_tramp_eq w F o a s

/-- C1: invoking the reference returned by `util::Function(f)` with arguments
`a` returns exactly `f(a)` — same return value and same state change — and,
under call-counting instrumentation, `f` is called exactly once per
invocation. -/
theorem function_invocation_exact (w : World α σ ρ) (fp : Ptr) (a : α) (s : σ) (n : Nat) :
    (Function fp).invoke w a s = w.freeFns fp a s
    ∧ ((Function fp).invoke (countingWorld w) a (s, n)).2.2 = n + 1 :=
  ⟨rfl, rfl⟩

/-- C2: invoking the reference returned by the non-const `util::Bind<m>(o)`
with arguments `a` equals running member function `m` on the original object
address `o` — same return value and same state change, so any mutation `m`
performs lands in the heap where `o` lives — and, under call-counting
instrumentation, `m` runs exactly once per invocation.  The last conjuncts
replay the spec's counter scenario: three invocations of a bound `increment`
return 1, 2, 3 and leave the counter object at address 5 holding 3. -/
theorem bind_invocation_on_original (w : World α σ ρ) (F : Nat) (o : Ptr) (a : α) (s : σ) (n : Nat) :
    (Bind F o).invoke w a s = w.methods F o a s
    ∧ ((Bind F o).invoke (countingWorld w) a (s, n)).2.2 = n + 1
    ∧ ((Bind 0 5).invoke counterWorld () (fun _ => 0)).1 = 1
    ∧ ((Bind 0 5).invoke counterWorld () ((Bind 0 5).invoke counterWorld () (fun _ => 0)).2).1 = 2
    ∧ ((Bind 0 5).invoke counterWorld ()
        ((Bind 0 5).invoke counterWorld () ((Bind 0 5).invoke counterWorld () (fun _ => 0)).2).2).1 = 3
    ∧ ((Bind 0 5).invoke counterWorld ()
        ((Bind 0 5).invoke counterWorld () ((Bind 0 5).invoke counterWorld () (fun _ => 0)).2).2).2 5 = 3 := by
  refine ⟨bind_invoke_eq w F o a s, ?_, ?_, ?_, ?_, ?_⟩
  · rw [bind_invoke_eq (countingWorld w) F o a (s, n)]
    rfl
  · rfl
  · rfl
  · rfl
  · rfl

/-- C3: a default-constructed reference has `IsSet()` false, converts to
`false`, and invoking it with any arguments in any state returns the return
type's value-initialized default and leaves the state unchanged (no side
effect); the invocation is a total function, producing no error. -/
theorem default_unset_invocation (w : World α σ ρ) (a : α) (s : σ) :
    mkDefault.IsSet = false
    ∧ mkDefault.toBool = false
    ∧ mkDefault.invoke w a s = (w.dflt, s) :=
  ⟨rfl, rfl, rfl⟩

/-- C4: a set reference — in particular one built by hand from an explicit
`(context, trampoline)` pair — invoked with arguments `a` calls
`trampoline(context, a)` and returns its result directly. -/
theorem manual_pair_invocation (w : World α σ ρ) (ctx fn : Ptr) (a : α) (s : σ)
    (h : fn ≠ nullPtr) :
    (Callback.mk ctx fn).invoke w a s = trampSem w fn ctx a s := by
  have hset : (Callback.mk ctx fn).IsSet = true := by
    simpa [Callback.IsSet, bne_iff_ne] using h
  simp only [Callback.invoke, hset, if_true]

/-- Witness for C4 at concrete inputs. -/
theorem manual_pair_invocation_witness :
    (1 : Ptr) ≠ nullPtr
    ∧ (Callback.mk 5 1).invoke natWorld 3 10 = trampSem natWorld 1 5 3 10 :=
  ⟨by decide, manual_pair_invocation natWorld 5 1 3 10 (by decide)⟩

/-- C5: `operator==` holds exactly when both the contexts and the trampolines
are equal — structural identity of the bound target — and `operator!=` is its
negation. -/
theorem equality_structural (c d : Callback) :
    (c.beq d = true ↔ c.context = d.context ∧ c.functor = d.functor)
    ∧ c.bne d = !(c.beq d) := by
  refine ⟨?_, rfl⟩
  simp [Callback.beq]

/-- Counterexample for C6: two unset references (both have `IsSet()` false)
that compare unequal, because one was hand-constructed with a non-null
context and a null trampoline. -/
theorem unset_refs_unequal_cex :
    (Callback.mk 1 nullPtr).IsSet = false
    ∧ mkDefault.IsSet = false
    ∧ (Callback.mk 1 nullPtr).beq mkDefault = false := by
  decide

/-- C6 (amended): two references constructed from the same free function
compare equal; two references bound with the same member function to
different objects compare unequal; a set reference compares unequal to a
default-constructed reference; two unset references compare equal exactly
when their contexts are equal; and two default-constructed references
compare equal. -/
theorem equality_cases_amended (fp : Ptr) (F : Nat) (oa ob : Ptr) (c d e : Callback) :
    (Function fp).beq (Function fp) = true
    ∧ (oa ≠ ob → (Bind F oa).beq (Bind F ob) = false)
    ∧ (c.IsSet = true → c.beq mkDefault = false)
    ∧ (d.IsSet = false → e.IsSet = false → (d.beq e = true ↔ d.context = e.context))
    ∧ mkDefault.beq mkDefault = true := by
  refine ⟨?_, ?_, ?_, ?_, rfl⟩
  · simp [Function, Callback.beq]
  · intro h
    simp [Bind, _BindHelper, Callback.beq, h]
  · intro h
    have hf : c.functor ≠ nullPtr := by
      simpa [Callback.IsSet, bne_iff_ne] using h
    simp [Callback.beq, mkDefault, hf]
  · intro hd he
    have hdf : d.functor = nullPtr := by
      simpa [Callback.IsSet, bne_iff_ne] using hd
    have hef : e.functor = nullPtr := by
      simpa [Callback.IsSet, bne_iff_ne] using he
    simp [Callback.beq, hdf, hef]

/-- Witness for C6 (amended) at concrete inputs. -/
theorem equality_cases_amended_witness :
    (Function 7).beq (Function 7) = true
    ∧ (Bind 0 2).beq (Bind 0 3) = false
    ∧ (Function 7).beq mkDefault = false
    ∧ ((Callback.mk 4 nullPtr).beq (Callback.mk 4 nullPtr) = true
        ↔ (Callback.mk 4 nullPtr).context = (Callback.mk 4 nullPtr).context)
    ∧ mkDefault.beq mkDefault = true := by
  have h := equality_cases_amended 7 0 2 3 (Function 7) (Callback.mk 4 nullPtr) (Callback.mk 4 nullPtr)
  exact ⟨h.1, h.2.1 (by decide), h.2.2.1 (by decide), h.2.2.2.1 (by decide) (by decide), h.2.2.2.2⟩

/-- C7: the const variant of `util::Bind` produces a set reference whose
context is the (read-only) object's own address, and invoking it runs the
const-qualified member function `F` on the original object and leaves the
machine state — in particular the object — unchanged: no mutation is
permitted. -/
theorem const_bind_invocation (w : World α σ ρ) (F : Nat) (o : Ptr) (a : α) (s : σ) :
    (BindConst F o).IsSet = true
    ∧ (BindConst F o).context = o
    ∧ (BindConst F o).invoke w a s = (w.constMethods F o a s, s) := by
  exact ⟨bindConst_isSet F o, rfl, bind_const_invoke_eq w F o a s⟩

/-- C8: `util::Function(f)` stores `f`'s own address as the context and the
(non-null) free-function trampoline as the functor, so the result always has
`IsSet()` true — including for a null `f`, which yields a reference that is
set with a null context. -/
theorem function_always_set (fp : Ptr) :
    (Function fp).context = fp
    ∧ (Function fp).functor = freeTrampAddr
    ∧ freeTrampAddr ≠ nullPtr
    ∧ (Function fp).IsSet = true
    ∧ (Function nullPtr).IsSet = true
    ∧ (Function nullPtr).context = nullPtr :=
  ⟨rfl, rfl, by decide, rfl, rfl, rfl⟩

/-- C9: after copying a set reference `c` into two distinct variables `x` and
`y`, the copy at `y` invokes identically to `c`; and reassigning the variable
at `x` to a different target `v` leaves the copy at `y` with the same
`(context, trampoline)` pair and the same invocation behavior. -/
theorem copy_independence (w : World α σ ρ) (st : CbStore) (x y : Nat) (c v : Callback)
    (a : α) (s : σ) (h : x ≠ y) :
    ((storeAssign (storeAssign st x c) y c) y).invoke w a s = c.invoke w a s
    ∧ (storeAssign (storeAssign (storeAssign st x c) y c) x v) y = c
    ∧ ((storeAssign (storeAssign (storeAssign st x c) y c) x v) y).invoke w a s
        = c.invoke w a s := by
  have h1 : (storeAssign (storeAssign st x c) y c) y = c := by
    simp [storeAssign]
  have h2 : (storeAssign (storeAssign (storeAssign st x c) y c) x v) y = c := by
    simp [storeAssign, Ne.symm h]
  exact ⟨by rw [h1], h2, by rw [h2]⟩

/-- Witness for C9 at concrete inputs. -/
theorem copy_independence_witness :
    (0 : Nat) ≠ 1
    ∧ (((storeAssign (storeAssign (fun _ => mkDefault) 0 (Function 2)) 1 (Function 2)) 1).invoke
          natWorld 3 4 = (Function 2).invoke natWorld 3 4
       ∧ (storeAssign (storeAssign (storeAssign (fun _ => mkDefault) 0 (Function 2)) 1 (Function 2)) 0
            mkDefault) 1 = Function 2
       ∧ ((storeAssign (storeAssign (storeAssign (fun _ => mkDefault) 0 (Function 2)) 1 (Function 2)) 0
            mkDefault) 1).invoke natWorld 3 4 = (Function 2).invoke natWorld 3 4) :=
  ⟨by decide,
   copy_independence natWorld (fun _ => mkDefault) 0 1 (Function 2) mkDefault 3 4 (by decide)⟩

/-- C10: the observer operations — `IsSet`, boolean conversion, equality and
inequality comparison, and invocation whether set or unset — leave the
reference's own `(context, trampoline)` pair unchanged (they are
`const`-qualified and write nothing to the receiver), and their results agree
with the pure model; assignment overwrites the pair with the source's pair,
and is the only operation that changes it. -/
theorem observers_preserve_fields (w : World α σ ρ) (c d v : Callback) (a : α) (s : σ) :
    (isSetM c).2 = c
    ∧ (toBoolM c).2 = c
    ∧ (eqM c d).2.1 = c ∧ (eqM c d).2.2 = d
    ∧ (neM c d).2.1 = c ∧ (neM c d).2.2 = d
    ∧ (invokeM w c a s).2.1 = c
    ∧ (invokeM w c a s).1 = (c.invoke w a s).1
    ∧ (invokeM w c a s).2.2 = (c.invoke w a s).2
    ∧ assignM c v = v := by
  refine ⟨rfl, rfl, rfl, rfl, rfl, rfl, ?_, ?_, ?_, rfl⟩
  · unfold invokeM
    split <;> rfl
  · unfold invokeM Callback.invoke
    split <;> rfl
  · unfold invokeM Callback.invoke
    split <;> rfl

end util
